import Mathlib

/-!
Shallow embedding of the bulk-add pipeline of the duka-fiti inventory UI:
the `NewBulkAddModal` row store (initialization, clearing, saving, CSV
template export), the `NewTemplatesView` search/category filter, and the
inventory page's `handleBulkAddProducts` orchestration.

JS `number | ''` fields are embedded as `Option ℚ` (`none` is the empty
sentinel); `Number('')` is `0`, and the JS falsy-or `x || d` on numbers
yields `d` exactly when `x` is `0`.
-/

namespace BulkAdd

/-- Whitespace for JS `trim()` (the common ASCII whitespace characters). -/
def jsWhitespace (c : Char) : Bool :=
  c = ' ' || c = '\t' || c = '\n' || c = '\r' || c = '\x0b' || c = '\x0c'

/-- JS `s.trim()`: strip leading and trailing whitespace. -/
def jsTrim (s : String) : String :=
  String.mk (((s.data.dropWhile jsWhitespace).reverse.dropWhile jsWhitespace).reverse)

/-- JS `s.toLowerCase()` (character-wise lowering). -/
def jsToLower (s : String) : String := String.mk (s.data.map Char.toLower)

/-- The `BulkProductRow` interface of `NewBulkAddModal`: one editable
spreadsheet row. Numeric fields hold `none` for the empty-string sentinel. -/
structure BulkProductRow where
  id : String
  name : String
  category : String
  costPrice : Option ℚ
  sellingPrice : Option ℚ
  currentStock : Option ℚ
  lowStockThreshold : Option ℚ
  isValid : Bool
  errors : List String
  deriving DecidableEq

/-- The product record produced at save time (`Omit<Product, id | createdAt
| updatedAt>` as built in `handleSave`). -/
structure ProductData where
  name : String
  category : String
  costPrice : ℚ
  sellingPrice : ℚ
  currentStock : ℚ
  lowStockThreshold : ℚ
  description : String
  barcode : String
  imageUrl : String
  deriving DecidableEq

/-- JS `Number(x)` on a `number | ''` field: `Number('')` is `0`. -/
def jsNumber : Option ℚ → ℚ
  | none => 0
  | some q => q

/-- JS `x || d` on numbers: `x` when truthy (non-zero), else the default `d`. -/
def jsOrDefault (x d : ℚ) : ℚ := if x = 0 then d else x

/-- The row filter of `handleSave`:
`spreadsheetData.filter(row => row.isValid && row.name.trim())`. -/
def rowQualifies (r : BulkProductRow) : Bool := r.isValid && (jsTrim r.name != "")

/-- The qualifying rows kept by `handleSave`. -/
def validRows (data : List BulkProductRow) : List BulkProductRow :=
  data.filter rowQualifies

/-- The per-row mapping of `handleSave`: trimmed name, `Number(x) || d`
defaults for cost price, stock and threshold, plain `Number` for the
selling price, and empty description, barcode and image URL. -/
def rowToProduct (r : BulkProductRow) : ProductData :=
  { name := jsTrim r.name
    category := r.category
    costPrice := jsOrDefault (jsNumber r.costPrice) 0
    sellingPrice := jsNumber r.sellingPrice
    currentStock := jsOrDefault (jsNumber r.currentStock) 0
    lowStockThreshold := jsOrDefault (jsNumber r.lowStockThreshold) 10
    description := ""
    barcode := ""
    imageUrl := "" }

/-- The filter-then-map pipeline of `handleSave` (the spec's
`collectValidProducts()`). -/
def collectValidProducts (data : List BulkProductRow) : List ProductData :=
  (validRows data).map rowToProduct

/-- `validProductsCount`: rows with `isValid` true. -/
def countValid (data : List BulkProductRow) : Nat :=
  (data.filter (fun r => r.isValid)).length

/-- `filledProductsCount`: rows whose trimmed name is non-empty. -/
def countFilled (data : List BulkProductRow) : Nat :=
  (data.filter (fun r => jsTrim r.name != "")).length

/-- Modelled from the spec: the per-row validation that maintains `isValid`
and `errors` lives in `NewSpreadsheetView`, which is not among the provided
sources. Per the spec, a row is valid iff its trimmed `name` is non-empty
AND `sellingPrice` is a present, non-negative number; `errors` is the list
of human-readable messages, empty iff the row is valid; cost price, stock
and threshold are not inspected. -/
def validate (r : BulkProductRow) : Bool × List String :=
  let nameErrors := if jsTrim r.name = "" then ["Name is required"] else []
  let priceErrors :=
    match r.sellingPrice with
    | none => ["Selling price is required"]
    | some p => if p < 0 then ["Selling price must be a non-negative number"] else []
  let errors := nameErrors ++ priceErrors
  (errors.isEmpty, errors)

/-- View mode of the modal. -/
inductive ViewMode where
  | spreadsheet
  | templates
  deriving DecidableEq

/-- A product template (`ProductTemplate` of `useProductTemplates`):
`category` and `image_url` are optional. -/
structure ProductTemplate where
  id : String
  name : String
  category : Option String
  image_url : Option String
  deriving DecidableEq

/-- The component state of `NewBulkAddModal`. -/
structure ModalState where
  viewMode : ViewMode
  selectedTemplates : List ProductTemplate
  spreadsheetData : List BulkProductRow
  deriving DecidableEq

/-- Observable effects of the modal handlers: toasts, the `onSave` callback
into the product store, closing the modal (`onClose`), and file downloads. -/
inductive ModalEffect where
  | toast (title description : String) (destructive : Bool)
  | callOnSave (products : List ProductData)
  | close
  | download (filename content : String)
  deriving DecidableEq

/-- One blank row of the initialization effect (`id` is `row_` ++ index). -/
def initialRow (index : Nat) : BulkProductRow :=
  { id := "row_" ++ toString index
    name := ""
    category := ""
    costPrice := none
    sellingPrice := none
    currentStock := none
    lowStockThreshold := none
    isValid := false
    errors := [] }

/-- The initialization effect of `NewBulkAddModal`: when the modal is open
and `spreadsheetData.length === 0`, produce 20 blank rows; otherwise leave
the data untouched. -/
def initializeSpreadsheetData (isOpen : Bool) (data : List BulkProductRow) :
    List BulkProductRow :=
  if isOpen && (data.length == 0) then (List.range 20).map initialRow else data

/-- The per-row reset performed by `handleClearAll`: every editable field
emptied, `isValid := false`, `errors := []`, `id` preserved by the spread. -/
def clearRow (r : BulkProductRow) : BulkProductRow :=
  { r with
    name := ""
    category := ""
    costPrice := none
    sellingPrice := none
    currentStock := none
    lowStockThreshold := none
    isValid := false
    errors := [] }

/-- `handleClearAll`: empties the selection set and resets every row; it
emits no effect (in particular it neither toasts nor closes the modal). -/
def handleClearAll (s : ModalState) : ModalState × List ModalEffect :=
  ({ s with
      selectedTemplates := []
      spreadsheetData := s.spreadsheetData.map clearRow }, [])

/-- `handleClose`: resets the view mode, selection and rows, then calls
`onClose`. -/
def handleClose (s : ModalState) : ModalState × List ModalEffect :=
  ({ viewMode := ViewMode.spreadsheet
     selectedTemplates := []
     spreadsheetData := [] }, [ModalEffect.close])

/-- `handleSave`: filters to the qualifying rows; with none, a destructive
toast and no further action; otherwise maps them to products, calls
`onSave`, toasts a success count, and closes via `handleClose`. -/
def handleSave (s : ModalState) : ModalState × List ModalEffect :=
  let valid := validRows s.spreadsheetData
  if valid.length = 0 then
    (s, [ModalEffect.toast "No Valid Products"
          "Please add at least one valid product before saving." true])
  else
    let products := valid.map rowToProduct
    let n := products.length
    let closed := handleClose s
    (closed.1,
      ModalEffect.callOnSave products ::
      ModalEffect.toast "Products Added"
        ("Successfully added " ++ toString n ++ " products to inventory.") false ::
      closed.2)

/-- The fixed CSV produced by `downloadTemplate` (three lines joined by a
newline). -/
def csvTemplateContent : String :=
  String.intercalate "\n"
    ["Name,Category,Cost Price,Selling Price,Current Stock,Low Stock Threshold",
     "Sample Product,General,10.00,15.00,100,10",
     "Another Product,Electronics,25.50,35.00,50,5"]

/-- `downloadTemplate`: requests a download of the fixed CSV under the fixed
filename and toasts; it reads nothing from the modal state. -/
def downloadTemplate (s : ModalState) : List ModalEffect :=
  [ModalEffect.download "bulk-products-template.csv" csvTemplateContent,
   ModalEffect.toast "Template Downloaded"
     "CSV template has been downloaded to your device." false]

/-- JS `hay.includes(needle)`: substring containment. -/
def strIncludes (hay needle : String) : Bool := decide (needle.data <:+: hay.data)

/-- The `filteredTemplates` memo of `NewTemplatesView`: a non-array input
yields `[]`; a non-blank search term keeps templates whose lowercased name
or category contains the lowercased trimmed term; a concrete category
(truthy and distinct from the `all` sentinel) then keeps exact matches. -/
def filteredTemplates (templates : Option (List ProductTemplate))
    (searchTerm selectedCategory : String) : List ProductTemplate :=
  match templates with
  | none => []
  | some ts =>
    let afterSearch :=
      if jsTrim searchTerm != "" then
        let searchLower := jsTrim (jsToLower searchTerm)
        ts.filter (fun t =>
          strIncludes (jsToLower t.name) searchLower ||
            (match t.category with
             | some c => strIncludes (jsToLower c) searchLower
             | none => false))
      else ts
    if (selectedCategory != "") && (selectedCategory != "all") then
      afterSearch.filter (fun t => t.category == some selectedCategory)
    else afterSearch

/-- The report produced by the inventory page's `handleBulkAddProducts`:
counts of settled outcomes, whether the panel was closed, and the toast. -/
structure BulkAddReport where
  successful : Nat
  failed : Nat
  panelClosed : Bool
  toastTitle : String
  toastDescription : String
  toastDestructive : Bool
  deriving DecidableEq

/-- `handleBulkAddProducts`: `Promise.allSettled` over one `createProduct`
call per product; `outcome i` tells whether the `i`-th call fulfills. Counts
of fulfilled and rejected results are taken over all settled results, the
templates panel is closed, and one combined toast is emitted. -/
def handleBulkAddProducts (productsData : List ProductData)
    (outcome : Nat → Bool) : BulkAddReport :=
  let results := (List.range productsData.length).map outcome
  let successful := (results.filter (fun b => b)).length
  let failed := (results.filter (fun b => !b)).length
  { successful := successful
    failed := failed
    panelClosed := true
    toastTitle := if failed = 0 then "Bulk Products Added" else "Partial Success"
    toastDescription :=
      if failed = 0 then
        toString successful ++ " products have been added to your inventory."
      else
        toString successful ++ " products added, " ++ toString failed ++
          " failed. Please check and retry failed items."
    toastDestructive := !(failed == 0) }

/-- The rational 9.99 (the selling price of the spec's Widget scenario). -/
def q9_99 : ℚ := ⟨999, 100, by decide, by decide⟩

/-- The Widget scenario row: only `name` and `sellingPrice` entered. -/
def widgetRow : BulkProductRow :=
  { id := "row_0"
    name := "Widget"
    category := ""
    costPrice := none
    sellingPrice := some q9_99
    currentStock := none
    lowStockThreshold := none
    isValid := true
    errors := [] }

/-- A valid row whose cost price, stock and threshold are all present and
equal to `0`. -/
def zeroThresholdRow : BulkProductRow :=
  { id := "row_1"
    name := "A"
    category := ""
    costPrice := some 0
    sellingPrice := some 1
    currentStock := some 0
    lowStockThreshold := some 0
    isValid := true
    errors := [] }

/-- A valid row whose cost price, stock and threshold are present, positive
numbers (3, 4 and 5). -/
def presentRow : BulkProductRow :=
  { id := "row_2"
    name := "B"
    category := ""
    costPrice := some 3
    sellingPrice := some 2
    currentStock := some 4
    lowStockThreshold := some 5
    isValid := true
    errors := [] }

/-- The freshly opened modal: 20 blank rows, nothing selected. -/
def blankModalState : ModalState :=
  { viewMode := ViewMode.spreadsheet
    selectedTemplates := []
    spreadsheetData := initializeSpreadsheetData true [] }

/-- A modal state holding exactly one qualifying row. -/
def oneValidState : ModalState :=
  { viewMode := ViewMode.spreadsheet
    selectedTemplates := []
    spreadsheetData := [widgetRow] }

/-- Three concrete submitted products for the partial-failure scenario. -/
def sampleBulkProducts : List ProductData :=
  [{ name := "A", category := "General", costPrice := 0, sellingPrice := 1,
     currentStock := 0, lowStockThreshold := 10, description := "",
     barcode := "", imageUrl := "" },
   { name := "B", category := "General", costPrice := 0, sellingPrice := 1,
     currentStock := 0, lowStockThreshold := 10, description := "",
     barcode := "", imageUrl := "" },
   { name := "C", category := "General", costPrice := 0, sellingPrice := 1,
     currentStock := 0, lowStockThreshold := 10, description := "",
     barcode := "", imageUrl := "" }]

/-! ## Helper lemmas -/

/-- The JS falsy-or with default `0` is the identity on numbers. -/
theorem jsOrDefault_zero_default (x : ℚ) : jsOrDefault x 0 = x := by
  by_cases h : x = 0 <;> simp [jsOrDefault, h]

/-- The JS falsy-or keeps a truthy (non-zero) number. -/
theorem jsOrDefault_of_ne (x d : ℚ) (h : x ≠ 0) : jsOrDefault x d = x := by
  simp [jsOrDefault, h]

/-- Splitting a boolean list by value: the two filtered lengths sum to the
whole length. -/
theorem length_filter_add_length_filter_not (l : List Bool) :
    (l.filter (fun b => b)).length + (l.filter (fun b => !b)).length = l.length := by
  induction l with
  | nil => rfl
  | cons b t ih => cases b <;> simp [List.filter_cons] <;> omega

/-! ## The claims -/

/-- C1: a row is valid iff its trimmed name is non-empty and its selling
price is a present, non-negative number; cost price, stock and threshold do
not affect validity. -/
theorem c1_valid_iff (r : BulkProductRow) (c st t : Option ℚ) :
    ((validate r).1 = true ↔
      (jsTrim r.name ≠ "" ∧ ∃ p, r.sellingPrice = some p ∧ 0 ≤ p)) ∧
    validate { r with costPrice := c, currentStock := st, lowStockThreshold := t } =
      validate r := by
  refine ⟨?_, rfl⟩
  cases hsp : r.sellingPrice with
  | none =>
    by_cases hn : jsTrim r.name = "" <;> simp [validate, hsp, hn]
  | some p =>
    by_cases hn : jsTrim r.name = ""
    · by_cases hp : p < 0 <;> simp [validate, hsp, hn, hp]
    · by_cases hp : p < 0
      · simp [validate, hsp, hn, hp, hp.not_le]
      · simp [validate, hsp, hn, hp, not_lt.mp hp]

/-- C2: the save path keeps exactly the rows with `isValid` true and a
non-empty trimmed name and maps each to the normalized product record; the
Widget scenario (name entered, selling price 9.99, all other numeric fields
unset) yields one product with cost 0, price 9.99, stock 0, threshold 10. -/
theorem c2_collect (data : List BulkProductRow) (p : ProductData) :
    (p ∈ collectValidProducts data ↔
      ∃ r, r ∈ data ∧ r.isValid = true ∧ jsTrim r.name ≠ "" ∧ rowToProduct r = p) ∧
    (validate widgetRow).1 = true ∧
    collectValidProducts [widgetRow] =
      [{ name := "Widget", category := "", costPrice := 0, sellingPrice := q9_99,
         currentStock := 0, lowStockThreshold := 10, description := "",
         barcode := "", imageUrl := "" }] := by
  refine ⟨?_, by decide, by decide⟩
  simp [collectValidProducts, validRows, rowQualifies, List.mem_map,
    List.mem_filter, Bool.and_eq_true, bne_iff_ne, and_assoc]

/-- C3 counterexample: a valid row with an entered threshold of `0` is saved
with threshold `10`, so a present value is not always preserved. -/
theorem c3_counterexample :
    zeroThresholdRow.isValid = true ∧
    (validate zeroThresholdRow).1 = true ∧
    zeroThresholdRow.costPrice = some 0 ∧
    zeroThresholdRow.currentStock = some 0 ∧
    zeroThresholdRow.lowStockThreshold = some 0 ∧
    (rowToProduct zeroThresholdRow).lowStockThreshold = 10 ∧
    (rowToProduct zeroThresholdRow).lowStockThreshold ≠ 0 := by decide

/-- C3 amended: entered cost price and stock are always preserved (an
entered `0` coincides with the substituted default `0`); an entered
threshold is preserved exactly when it is non-zero, while an entered
threshold of `0` is replaced by the default `10`. -/
theorem c3_amended_defaults (r : BulkProductRow) (c st t : ℚ)
    (hc : r.costPrice = some c) (hc0 : 0 ≤ c)
    (hst : r.currentStock = some st) (hst0 : 0 ≤ st)
    (ht : r.lowStockThreshold = some t) (ht0 : 0 ≤ t) :
    (rowToProduct r).costPrice = c ∧
    (rowToProduct r).currentStock = st ∧
    (t ≠ 0 → (rowToProduct r).lowStockThreshold = t) ∧
    (t = 0 → (rowToProduct r).lowStockThreshold = 10) := by
  refine ⟨?_, ?_, ?_, ?_⟩
  · simp [rowToProduct, jsNumber, hc, jsOrDefault_zero_default]
  · simp [rowToProduct, jsNumber, hst, jsOrDefault_zero_default]
  · intro hne
    simp [rowToProduct, jsNumber, ht, jsOrDefault_of_ne _ _ hne]
  · intro h0
    simp [rowToProduct, jsNumber, ht, h0, jsOrDefault]

/-- C3 amended, witness at the concrete row with entered values 3, 4, 5. -/
theorem c3_amended_defaults_witness :
    (rowToProduct presentRow).costPrice = 3 ∧
    (rowToProduct presentRow).currentStock = 4 ∧
    ((5 : ℚ) ≠ 0 → (rowToProduct presentRow).lowStockThreshold = 5) ∧
    ((5 : ℚ) = 0 → (rowToProduct presentRow).lowStockThreshold = 10) :=
  c3_amended_defaults presentRow 3 4 5 rfl (by decide) rfl (by decide) rfl (by decide)

/-- C4: saving with no qualifying row only reports the destructive
no-valid-products toast: the state (rows, selection, view) is returned
untouched, the product store is never called, and the modal stays open. -/
theorem c4_empty_save (s : ModalState) (h : validRows s.spreadsheetData = []) :
    handleSave s =
      (s, [ModalEffect.toast "No Valid Products"
            "Please add at least one valid product before saving." true]) ∧
    (∀ ps, ModalEffect.callOnSave ps ∉ (handleSave s).2) ∧
    ModalEffect.close ∉ (handleSave s).2 := by
  have he : handleSave s =
      (s, [ModalEffect.toast "No Valid Products"
            "Please add at least one valid product before saving." true]) := by
    simp [handleSave, h]
  refine ⟨he, ?_, ?_⟩ <;> simp [he]

/-- C4, witness: the freshly opened modal with its 20 blank rows. -/
theorem c4_empty_save_witness :
    handleSave blankModalState =
      (blankModalState, [ModalEffect.toast "No Valid Products"
        "Please add at least one valid product before saving." true]) :=
  (c4_empty_save blankModalState (by decide)).1

/-- C5: the bulk-create orchestration settles every per-row attempt before
reporting (the separately reported counts always sum to the number of
submitted products) and closes the panel; with 3 products and the second
creation rejected it reports 2 successful and 1 failed. -/
theorem c5_bulk_settled (productsData : List ProductData) (outcome : Nat → Bool) :
    (handleBulkAddProducts productsData outcome).successful +
      (handleBulkAddProducts productsData outcome).failed = productsData.length ∧
    (handleBulkAddProducts productsData outcome).panelClosed = true ∧
    (handleBulkAddProducts sampleBulkProducts (fun i => i != 1)).successful = 2 ∧
    (handleBulkAddProducts sampleBulkProducts (fun i => i != 1)).failed = 1 := by
  refine ⟨?_, rfl, by decide, by decide⟩
  have hl := length_filter_add_length_filter_not
    ((List.range productsData.length).map outcome)
  simpa [handleBulkAddProducts] using hl

/-- C6: clearing resets every row's editable fields (empty text, unset
numbers, `isValid` false, no errors), leaves the same row ids in the same
count, empties the selection, emits no effect (so the modal stays open),
and afterwards no row counts as filled. -/
theorem c6_clearAll (s : ModalState) :
    countFilled (handleClearAll s).1.spreadsheetData = 0 ∧
    (handleClearAll s).1.spreadsheetData.map BulkProductRow.id =
      s.spreadsheetData.map BulkProductRow.id ∧
    (handleClearAll s).1.spreadsheetData.length = s.spreadsheetData.length ∧
    (handleClearAll s).1.selectedTemplates = [] ∧
    (∀ r ∈ (handleClearAll s).1.spreadsheetData,
      r.name = "" ∧ r.category = "" ∧ r.costPrice = none ∧ r.sellingPrice = none ∧
      r.currentStock = none ∧ r.lowStockThreshold = none ∧ r.isValid = false ∧
      r.errors = []) ∧
    (handleClearAll s).2 = [] := by
  refine ⟨?_, ?_, ?_, rfl, ?_, rfl⟩
  · show countFilled (s.spreadsheetData.map clearRow) = 0
    unfold countFilled
    rw [List.length_eq_zero, List.filter_eq_nil_iff]
    intro r hr
    rcases List.mem_map.1 hr with ⟨x, _, rfl⟩
    change ¬(jsTrim "" != "") = true
    decide
  · show (s.spreadsheetData.map clearRow).map BulkProductRow.id =
      s.spreadsheetData.map BulkProductRow.id
    rw [List.map_map]
    exact List.map_congr_left (fun r _ => rfl)
  · show (s.spreadsheetData.map clearRow).length = s.spreadsheetData.length
    exact List.length_map _ _
  · intro r hr
    rcases List.mem_map.1 hr with ⟨x, _, rfl⟩
    exact ⟨rfl, rfl, rfl, rfl, rfl, rfl, rfl, rfl⟩

/-- C7: opening on an empty store produces 20 blank rows, and initialization
on a non-empty store is a no-op that keeps every row exactly as it was. -/
theorem c7_initialization (b : Bool) (data : List BulkProductRow) (h : data ≠ []) :
    (initializeSpreadsheetData true []).length = 20 ∧
    (∀ r ∈ initializeSpreadsheetData true [],
      r.name = "" ∧ r.category = "" ∧ r.costPrice = none ∧ r.sellingPrice = none ∧
      r.currentStock = none ∧ r.lowStockThreshold = none ∧ r.isValid = false ∧
      r.errors = []) ∧
    initializeSpreadsheetData b data = data := by
  refine ⟨by decide, ?_, ?_⟩
  · intro r hr
    rw [show initializeSpreadsheetData true [] = (List.range 20).map initialRow
      from rfl] at hr
    rcases List.mem_map.1 hr with ⟨i, _, rfl⟩
    exact ⟨rfl, rfl, rfl, rfl, rfl, rfl, rfl, rfl⟩
  · have hl : (data.length == 0) = false := by
      refine beq_eq_false_iff_ne.mpr ?_
      intro h0
      exact h (List.length_eq_zero.mp h0)
    simp [initializeSpreadsheetData, hl]

/-- C7, witness: initialization on a one-row store returns it unchanged. -/
theorem c7_initialization_witness :
    initializeSpreadsheetData true [initialRow 0] = [initialRow 0] :=
  (c7_initialization true [initialRow 0] (by decide)).2.2

/-- C8: filtering with the empty search term and the `all` category sentinel
returns the input unchanged, and any filtering result is an order-preserving
subsequence of the input (no re-sorting). -/
theorem c8_filter (templates : Option (List ProductTemplate))
    (searchTerm selectedCategory : String) (ts : List ProductTemplate) :
    filteredTemplates (some ts) "" "all" = ts ∧
    (filteredTemplates templates searchTerm selectedCategory).Sublist
      (templates.getD []) := by
  constructor
  · have h1 : (jsTrim "" != "") = false := by decide
    have h2 : (("all" != "") && ("all" != "all")) = false := by decide
    simp [filteredTemplates, h1, h2]
  · cases templates with
    | none => simp [filteredTemplates]
    | some l =>
      show (filteredTemplates (some l) searchTerm selectedCategory).Sublist l
      unfold filteredTemplates
      dsimp only
      split
      · split
        · exact (List.filter_sublist _).trans (List.filter_sublist _)
        · exact List.filter_sublist _
      · split
        · exact List.filter_sublist _
        · exact List.Sublist.refl _

/-- C9: the CSV template export is the fixed header plus the two fixed
sample rows under the fixed filename, identical for any two modal states. -/
theorem c9_export (s1 s2 : ModalState) :
    downloadTemplate s1 = downloadTemplate s2 ∧
    downloadTemplate s1 =
      [ModalEffect.download "bulk-products-template.csv"
        ("Name,Category,Cost Price,Selling Price,Current Stock,Low Stock Threshold\n" ++
         "Sample Product,General,10.00,15.00,100,10\n" ++
         "Another Product,Electronics,25.50,35.00,50,5"),
       ModalEffect.toast "Template Downloaded"
         "CSV template has been downloaded to your device." false] := by
  refine ⟨rfl, ?_⟩
  have hc : csvTemplateContent =
      ("Name,Category,Cost Price,Selling Price,Current Stock,Low Stock Threshold\n" ++
       "Sample Product,General,10.00,15.00,100,10\n" ++
       "Another Product,Electronics,25.50,35.00,50,5") := by decide
  simp [downloadTemplate, hc]

/-- C10 (implicit): whenever at least one row qualifies, `handleSave`
reports the success toast with the count of submitted rows and closes and
clears the modal, for every possible outcome oracle of the subsequent
per-row creations; the separately counted outcomes also sum to that count,
and with an all-rejecting store nothing actually succeeds even though the
toast already reported the full count. -/
theorem c10_save_reports_submitted (s : ModalState) (outcome : Nat → Bool)
    (h : validRows s.spreadsheetData ≠ []) :
    (handleSave s).2 =
      [ModalEffect.callOnSave (collectValidProducts s.spreadsheetData),
       ModalEffect.toast "Products Added"
         ("Successfully added " ++ toString (validRows s.spreadsheetData).length ++
          " products to inventory.") false,
       ModalEffect.close] ∧
    (handleSave s).1.spreadsheetData = [] ∧
    (handleSave s).1.selectedTemplates = [] ∧
    (handleBulkAddProducts (collectValidProducts s.spreadsheetData) outcome).successful +
      (handleBulkAddProducts (collectValidProducts s.spreadsheetData) outcome).failed =
        (validRows s.spreadsheetData).length ∧
    (handleBulkAddProducts (collectValidProducts s.spreadsheetData)
      (fun _ => false)).successful = 0 := by
  have hlen : ¬(validRows s.spreadsheetData).length = 0 := by
    intro h0
    exact h (List.length_eq_zero.mp h0)
  refine ⟨?_, ?_, ?_, ?_, ?_⟩
  · simp [handleSave, hlen, handleClose, collectValidProducts, List.length_map]
  · simp [handleSave, hlen, handleClose]
  · simp [handleSave, hlen, handleClose]
  · have hl := length_filter_add_length_filter_not
      ((List.range (collectValidProducts s.spreadsheetData).length).map outcome)
    simpa [handleBulkAddProducts, collectValidProducts, List.length_map] using hl
  · simp [handleBulkAddProducts]

/-- C10, witness: the one-qualifying-row state under an always-rejecting
outcome oracle. -/
theorem c10_save_reports_submitted_witness :
    (handleSave oneValidState).2 =
      [ModalEffect.callOnSave (collectValidProducts oneValidState.spreadsheetData),
       ModalEffect.toast "Products Added"
         ("Successfully added " ++
          toString (validRows oneValidState.spreadsheetData).length ++
          " products to inventory.") false,
       ModalEffect.close] :=
  (c10_save_reports_submitted oneValidState (fun _ => false) (by decide)).1

end BulkAdd
